import Mathlib

/-!
# ApeChain NFT buyer: a shallow embedding of `src/App.jsx`

The React component `App` keeps nine state cells (`useState`) and defines five
asynchronous operations: `apiCall`, `switchToApeChain`, `connectWallet`,
`fetchNFT` and `buyNFT`.  Each operation is embedded as a pure function that
takes

* the component state captured by the closure of the operation, and
* the answers of the outside world (wallet provider, marketplace API, the
  `ethers` library) to the requests the operation may issue,

and returns the state after the run together with the ordered list of
externally visible events (requests issued and status lines emitted).
-/

namespace App

/-! ## JavaScript values -/

/-- The `code` property of a thrown value. -/
inductive JsCode where
  | undefined
  | num (n : Int)
  | str (s : String)
deriving DecidableEq, Repr

/-- A thrown value, reduced to the two properties the program reads:
`code` and `message` (`none` is `undefined`). -/
structure JsError where
  code : JsCode
  message : Option String
deriving DecidableEq, Repr

/-- The value built by `new Error(msg)`. -/
def mkError (msg : String) : JsError := ⟨JsCode.undefined, some msg⟩

/-- String concatenation `a + m` where `m` may be `undefined`. -/
def jsConcat (a : String) (m : Option String) : String :=
  a ++ m.getD "undefined"

/-- Truthiness of a value that is a string, `null` or `undefined`. -/
def truthy : Option String → Bool
  | some s => s != ""
  | none => false

/-- Whether `frag` occurs at some position of `l`. -/
def includesList (frag : List Char) : List Char → Bool
  | [] => frag.isEmpty
  | c :: cs => frag.isPrefixOf (c :: cs) || includesList frag cs

/-- The call `m?.includes(frag)` used as a condition: `undefined` is falsy. -/
def jsIncludes (m : Option String) (frag : String) : Bool :=
  match m with
  | some s => includesList frag.data s.data
  | none => false

/-! ## Constants -/

def OPENSEA_API_KEY : String := ""

def API_BASE : String := "/opensea/api/v2"

structure NativeCurrency where
  name : String
  symbol : String
  decimals : Nat
deriving DecidableEq, Repr

structure Chain where
  slug : String
  chainId : String
  name : String
  rpc : String
  nativeCurrency : NativeCurrency
  blockExplorer : String
deriving DecidableEq, Repr

def APECHAIN : Chain :=
  { slug := "ape_chain"
    chainId := "0x8173"
    name := "ApeChain"
    rpc := "https://rpc.apechain.com/http"
    nativeCurrency := { name := "APE", symbol := "APE", decimals := 18 }
    blockExplorer := "https://apescan.io" }

/-! ## Data carried by the marketplace API -/

/-- A JSON value the program only passes on, kept as its text. -/
abbrev JsonValue := String

/-- The object `price.current`; `value`, a decimal text in the API, is kept as
the number of wei it denotes. -/
structure PriceCurrent where
  value : Option Nat
deriving DecidableEq, Repr

structure Price where
  current : Option PriceCurrent
deriving DecidableEq, Repr

/-- The body of the best-listing response; every field may be missing. -/
structure Listing where
  order_hash : Option String
  protocol_address : Option String
  price : Option Price
deriving DecidableEq, Repr

structure Nft where
  name : Option String
  identifier : Option String
  image_url : Option String
  collection : Option String
deriving DecidableEq, Repr

/-- The body of the asset response. -/
structure AssetResponse where
  nft : Option Nft
deriving DecidableEq, Repr

structure InputData where
  advancedOrder : Option JsonValue
  criteriaResolvers : Option JsonValue
  fulfillerConduitKey : Option JsonValue
  recipient : Option JsonValue
deriving DecidableEq, Repr

structure TxData where
  to_ : Option String
  value : Option JsonValue
  input_data : Option InputData
deriving DecidableEq, Repr

structure FulfillmentData where
  transaction : Option TxData
deriving DecidableEq, Repr

/-- The body of the fulfillment-data response. -/
structure FulfillmentResponse where
  fulfillment_data : Option FulfillmentData
deriving DecidableEq, Repr

/-! ## Requests sent to the outside world -/

/-- The single parameter object of `wallet_addEthereumChain`. -/
structure AddChainParams where
  chainId : String
  chainName : String
  rpcUrls : List String
  nativeCurrency : NativeCurrency
  blockExplorerUrls : List String
deriving DecidableEq, Repr

structure FulfillmentListing where
  hash : Option String
  chain : String
  protocol_address : Option String
deriving DecidableEq, Repr

/-- The JSON body of the POST to `/listings/fulfillment_data`. -/
structure FulfillmentRequest where
  listing : FulfillmentListing
  fulfiller : String
deriving DecidableEq, Repr

/-- The argument of `signer.sendTransaction`. -/
structure TxRequest where
  to_ : Option String
  data : String
  value : Option JsonValue
  gasLimit : Nat
deriving DecidableEq, Repr

/-- What a run does that is visible outside the component, in order. -/
inductive Event where
  | switchEthereumChain (chainId : String)
  | addEthereumChain (params : AddChainParams)
  | requestAccounts
  | getAddress
  | apiGet (url : String)
  | getBalance (address : String)
  | postFulfillment (url : String) (body : FulfillmentRequest)
  | sendTransaction (tx : TxRequest)
  | txWait (hash : String)
  | status (s : String)
deriving DecidableEq, Repr

/-! ## Component state -/

/-- The handle built by `new ethers.providers.Web3Provider(window.ethereum)`. -/
inductive Provider where
  | web3
deriving DecidableEq, Repr

/-- The nine `useState` cells of `App`. -/
structure State where
  wallet : Option String
  provider : Option Provider
  contractAddress : String
  tokenId : String
  nft : Option Nft
  listing : Option Listing
  loading : Bool
  status : String
  error : Option String
deriving DecidableEq, Repr

/-- The state of the first render. -/
def initialState : State :=
  { wallet := none
    provider := none
    contractAddress := ""
    tokenId := ""
    nft := none
    listing := none
    loading := false
    status := ""
    error := some "" }

/-! ## Network negotiation and wallet connection -/

/-- Answers of the wallet provider during one `connectWallet` run. -/
structure WalletEnv where
  hasEthereum : Bool
  switchChain : Except JsError Unit
  addChain : Except JsError Unit
  requestAccounts : Except JsError Unit
  getAddress : Except JsError String

def addChainParams : AddChainParams :=
  { chainId := APECHAIN.chainId
    chainName := APECHAIN.name
    rpcUrls := [APECHAIN.rpc]
    nativeCurrency := APECHAIN.nativeCurrency
    blockExplorerUrls := [APECHAIN.blockExplorer] }

/-- Embedding of `switchToApeChain`: the result is `ok` when the promise
resolves and `error e` when it rejects with `e`. -/
def switchToApeChain (env : WalletEnv) : Except JsError Unit × List Event :=
  match env.switchChain with
  | .ok _ => (.ok (), [Event.switchEthereumChain APECHAIN.chainId])
  | .error e =>
    if e.code = JsCode.num 4902 then
      match env.addChain with
      | .ok _ =>
        (.ok (), [Event.switchEthereumChain APECHAIN.chainId,
                  Event.addEthereumChain addChainParams])
      | .error e2 =>
        (.error e2, [Event.switchEthereumChain APECHAIN.chainId,
                     Event.addEthereumChain addChainParams])
    else
      (.ok (), [Event.switchEthereumChain APECHAIN.chainId])

/-- Embedding of `connectWallet`. -/
def connectWallet (env : WalletEnv) (s : State) : State × List Event :=
  let s0 := { s with error := some "" }
  if !env.hasEthereum then
    ({ s0 with error := some "Install MetaMask!" }, [])
  else
    match switchToApeChain env with
    | (.error e, t) => ({ s0 with error := e.message }, t)
    | (.ok _, t) =>
      match env.requestAccounts with
      | .error e => ({ s0 with error := e.message }, t ++ [Event.requestAccounts])
      | .ok _ =>
        match env.getAddress with
        | .error e =>
          ({ s0 with error := e.message },
            t ++ [Event.requestAccounts, Event.getAddress])
        | .ok address =>
          ({ s0 with
              wallet := some address
              provider := some Provider.web3
              status := "Connected on ApeChain" },
            t ++ [Event.requestAccounts, Event.getAddress,
                  Event.status "Connected on ApeChain"])

/-- Number of `wallet_addEthereumChain` requests in a trace. -/
def addRequests (t : List Event) : Nat :=
  (t.filter fun e => match e with
    | Event.addEthereumChain _ => true
    | _ => false).length

/-- Number of `wallet_switchEthereumChain` requests in a trace. -/
def switchRequests (t : List Event) : Nat :=
  (t.filter fun e => match e with
    | Event.switchEthereumChain _ => true
    | _ => false).length

/-- The switch request rejected with the number 4902 as its `code`. -/
def failedWith4902 (r : Except JsError Unit) : Prop :=
  ∃ e, r = .error e ∧ e.code = JsCode.num 4902

/-! ## Marketplace client -/

/-- What `fetch` resolves to: the status line and the outcome of reading the
body as text and as JSON. -/
structure HttpResponse (α : Type) where
  status : Nat
  text : Except JsError String
  json : Except JsError α

/-- The `ok` property of a response: the status is in the range 200 to 299. -/
def HttpResponse.ok {α : Type} (r : HttpResponse α) : Bool :=
  decide (200 ≤ r.status) && decide (r.status ≤ 299)

/-- The outcome of `fetch(url, ...)`: a rejection or a response. -/
abbrev Fetch (α : Type) := String → Except JsError (HttpResponse α)

/-- Embedding of `apiCall`; it issues exactly one GET, to `API_BASE + endpoint`. -/
def apiCall {α : Type} (fetch : Fetch α) (endpoint : String) : Except JsError α :=
  match fetch (API_BASE ++ endpoint) with
  | .error e => .error e
  | .ok res =>
    if !res.ok then .error (mkError ("API error: " ++ toString res.status))
    else res.json

/-- Interpolation of a possibly `undefined` string into a template literal. -/
def interp (v : Option String) : String := v.getD "undefined"

def assetEndpoint (contractAddress tokenId : String) : String :=
  "/chain/" ++ APECHAIN.slug ++ "/contract/" ++ contractAddress ++ "/nfts/" ++ tokenId

def bestListingEndpoint (collection : Option String) (tokenId : String) : String :=
  "/listings/collection/" ++ interp collection ++ "/nfts/" ++ tokenId ++ "/best"

/-- Answers of the marketplace API during one `fetchNFT` run. `typeError` is
the error the engine throws when a property of `undefined` is read. -/
structure FetchEnv where
  fetchAsset : Fetch AssetResponse
  fetchBest : Fetch Listing
  typeError : JsError

/-- Embedding of `fetchNFT`. -/
def fetchNFT (env : FetchEnv) (s : State) : State × List Event :=
  if s.contractAddress = "" ∨ s.tokenId = "" then
    ({ s with error := some "Enter contract + token ID" }, [])
  else
    let s1 := { s with loading := true, error := some "", nft := none, listing := none }
    let ep1 := assetEndpoint s.contractAddress s.tokenId
    match apiCall env.fetchAsset ep1 with
    | .error e =>
      ({ s1 with error := some (jsConcat "Error: " e.message), loading := false },
        [Event.apiGet (API_BASE ++ ep1)])
    | .ok asset =>
      let s2 := { s1 with nft := asset.nft }
      match asset.nft with
      | none =>
        ({ s2 with error := some (jsConcat "Error: " env.typeError.message),
                   loading := false },
          [Event.apiGet (API_BASE ++ ep1)])
      | some nft =>
        let ep2 := bestListingEndpoint nft.collection s.tokenId
        match apiCall env.fetchBest ep2 with
        | .error e =>
          ({ s2 with error := some (jsConcat "Error: " e.message), loading := false },
            [Event.apiGet (API_BASE ++ ep1), Event.apiGet (API_BASE ++ ep2)])
        | .ok listingsRes =>
          if truthy listingsRes.order_hash then
            ({ s2 with listing := some listingsRes
                       status := "NFT found with listing!"
                       loading := false },
              [Event.apiGet (API_BASE ++ ep1), Event.apiGet (API_BASE ++ ep2),
               Event.status "NFT found with listing!"])
          else
            ({ s2 with status := "NFT found - no active listing", loading := false },
              [Event.apiGet (API_BASE ++ ep1), Event.apiGet (API_BASE ++ ep2),
               Event.status "NFT found - no active listing"])

/-! ## Purchase -/

/-- What `signer.sendTransaction` resolves to: the hash and the outcome of
`tx.wait()`. -/
structure TxResponse where
  hash : String
  wait : Except JsError Unit

/-- Answers of the outside world during one `buyNFT` run, and the two library
computations the embedding does not interpret: `toFixed4 x` stands for
`parseFloat(ethers.utils.formatEther(x)).toFixed(4)` and `encodeFunctionData`
for the method of the same name of `ethers.utils.Interface`, built from the
fixed ABI of `fulfillAdvancedOrder`. -/
structure BuyEnv where
  getBalance : String → Except JsError Nat
  fetchFulfillment : FulfillmentRequest → Except JsError (HttpResponse FulfillmentResponse)
  encodeFunctionData : String → List (Option JsonValue) → Except JsError String
  sendTransaction : TxRequest → Except JsError TxResponse
  toFixed4 : Nat → String
  typeError : JsError

/-- The value of `ethers.utils.parseEther('0.1')`, in wei. -/
def gasBuffer : Nat := 10 ^ 17

/-- The value of `listing.price?.current?.value || '0'` as a number. -/
def listingPrice (listing : Listing) : Nat :=
  match listing.price with
  | none => 0
  | some p =>
    match p.current with
    | none => 0
    | some c => c.value.getD 0

def insufficientBalanceMessage (env : BuyEnv) (balance price : Nat) : String :=
  "Insufficient balance! You have " ++ env.toFixed4 balance ++ " APE but need ~" ++
    env.toFixed4 price ++ " APE + gas"

def fulfillmentUrl : String := API_BASE ++ "/listings/fulfillment_data"

def fulfillmentRequest (listing : Listing) (wallet : String) : FulfillmentRequest :=
  { listing := { hash := listing.order_hash
                 chain := APECHAIN.slug
                 protocol_address := listing.protocol_address }
    fulfiller := wallet }

/-- The transaction passed to `signer.sendTransaction`. -/
def txRequest (txData : TxData) (calldata : String) : TxRequest :=
  { to_ := txData.to_, data := calldata, value := txData.value, gasLimit := 350000 }

/-- The `try` block of `buyNFT`, entered with the `listing` and `wallet` of the
closure. The first component is the thrown error, or `none` when the block
ends normally or by `return`. -/
def buyNFTTry (env : BuyEnv) (s : State) (listing : Listing) (wallet : String) :
    Option JsError × State × List Event :=
  let s1 := { s with loading := true, error := some "", status := "Checking balance..." }
  let t1 := [Event.status "Checking balance...", Event.getBalance wallet]
  match env.getBalance wallet with
  | .error e => (some e, s1, t1)
  | .ok balance =>
    let price := listingPrice listing
    let totalNeeded := price + gasBuffer
    if balance < totalNeeded then
      (none,
        { s1 with error := some (insufficientBalanceMessage env balance price)
                  loading := false },
        t1)
    else
      let s2 := { s1 with status := "Preparing purchase..." }
      let body := fulfillmentRequest listing wallet
      let t2 := t1 ++ [Event.status "Preparing purchase...",
                       Event.postFulfillment fulfillmentUrl body]
      match env.fetchFulfillment body with
      | .error e => (some e, s2, t2)
      | .ok fulfillRes =>
        if !fulfillRes.ok then
          match fulfillRes.text with
          | .error e => (some e, s2, t2)
          | .ok _ =>
            (some (mkError ("Failed to get fulfillment data: " ++ toString fulfillRes.status)),
              s2, t2)
        else
          match fulfillRes.json with
          | .error e => (some e, s2, t2)
          | .ok data =>
            match data.fulfillment_data.bind (·.transaction) with
            | none => (some (mkError "No transaction data returned"), s2, t2)
            | some txData =>
              let s3 := { s2 with status := "Confirm in MetaMask..." }
              let t3 := t2 ++ [Event.status "Confirm in MetaMask..."]
              match txData.input_data with
              | none => (some env.typeError, s3, t3)
              | some inputData =>
                match env.encodeFunctionData "fulfillAdvancedOrder"
                    [inputData.advancedOrder, inputData.criteriaResolvers,
                     inputData.fulfillerConduitKey, inputData.recipient] with
                | .error e => (some e, s3, t3)
                | .ok calldata =>
                  let req := txRequest txData calldata
                  let t4 := t3 ++ [Event.sendTransaction req]
                  match env.sendTransaction req with
                  | .error e => (some e, s3, t4)
                  | .ok tx =>
                    let s4 := { s3 with status := "TX sent! " ++ tx.hash }
                    let t5 := t4 ++ [Event.status ("TX sent! " ++ tx.hash),
                                     Event.txWait tx.hash]
                    match tx.wait with
                    | .error e => (some e, s4, t5)
                    | .ok _ =>
                      (none,
                        { s4 with status := "Purchase complete! " ++ tx.hash },
                        t5 ++ [Event.status ("Purchase complete! " ++ tx.hash)])

/-- The `catch` block of `buyNFT`. -/
def buyNFTCatch (err : JsError) (s : State) : State :=
  if jsIncludes err.message "InsufficientNativeTokensSupplied" ||
      jsIncludes err.message "a61be9f0" then
    { s with error := some "Insufficient APE balance for this purchase" }
  else
    { s with error := some (jsConcat "Failed: " err.message) }

/-- Embedding of `buyNFT`: the entry check, then `try`, `catch` and `finally`. -/
def buyNFT (env : BuyEnv) (s : State) : State × List Event :=
  match s.listing, s.wallet, s.provider with
  | some listing, some wallet, some _ =>
    if wallet = "" then ({ s with error := some "No listing available" }, [])
    else
      match buyNFTTry env s listing wallet with
      | (some err, s1, t) => ({ buyNFTCatch err s1 with loading := false }, t)
      | (none, s1, t) => ({ s1 with loading := false }, t)
  | _, _, _ => ({ s with error := some "No listing available" }, [])

/-! ## Observations on traces -/

/-- The status lines of a trace, in order. -/
def statuses (t : List Event) : List String :=
  t.filterMap fun e => match e with
    | Event.status m => some m
    | _ => none

/-- The transactions handed to `signer.sendTransaction`, in order. -/
def sentTransactions (t : List Event) : List TxRequest :=
  t.filterMap fun e => match e with
    | Event.sendTransaction tx => some tx
    | _ => none

/-- The bodies of the POSTs to `/listings/fulfillment_data`, in order. -/
def fulfillmentPosts (t : List Event) : List FulfillmentRequest :=
  t.filterMap fun e => match e with
    | Event.postFulfillment _ body => some body
    | _ => none

/-- The requests to the wallet provider and to the API: everything but the
status lines. -/
def externalCalls (t : List Event) : List Event :=
  t.filter fun e => match e with
    | Event.status _ => false
    | _ => true

/-- The error cell holds the message of the pre-flight balance check. -/
def isInsufficientBalanceError (error : Option String) : Bool :=
  match error with
  | some m => "Insufficient balance!".data.isPrefixOf m.data
  | none => false

/-! ## Sequences of runs -/

/-- What the user can trigger: editing one of the two inputs, or starting one
of the three operations; an operation comes with the answers of the outside
world during its run. -/
inductive Action where
  | setContractAddress (v : String)
  | setTokenId (v : String)
  | connectWallet (env : WalletEnv)
  | fetchNFT (env : FetchEnv)
  | buyNFT (env : BuyEnv)

/-- The state after one action. -/
def step (s : State) : Action → State
  | Action.setContractAddress v => { s with contractAddress := v }
  | Action.setTokenId v => { s with tokenId := v }
  | Action.connectWallet env => (connectWallet env s).1
  | Action.fetchNFT env => (fetchNFT env s).1
  | Action.buyNFT env => (buyNFT env s).1

/-- The state after a sequence of actions, each run to completion. -/
def run (s : State) (acts : List Action) : State :=
  acts.foldl step s

/-- The listing `l` is the answer to the best-listing request that a `fetchNFT`
run of the history `acts` made for the collection of the asset record `nft`,
with the token id used to fetch that record. -/
def FetchedFor (acts : List Action) (nft : Nft) (l : Listing) : Prop :=
  ∃ pre env post, acts = pre ++ Action.fetchNFT env :: post ∧
    apiCall env.fetchAsset
        (assetEndpoint (run initialState pre).contractAddress
          (run initialState pre).tokenId) = .ok ⟨some nft⟩ ∧
    apiCall env.fetchBest
        (bestListingEndpoint nft.collection (run initialState pre).tokenId) = .ok l

/-! ## Sample inputs -/

def sampleNft : Nft :=
  { name := some "Ape #7", identifier := some "7", image_url := none,
    collection := some "apes" }

def sampleListing : Listing :=
  { order_hash := some "0xorder", protocol_address := some "0xseaport",
    price := some ⟨some ⟨some 5⟩⟩ }

def sampleInputData : InputData :=
  { advancedOrder := some "order", criteriaResolvers := some "[]",
    fulfillerConduitKey := some "0x00", recipient := some "0xbuyer" }

def sampleTxData : TxData :=
  { to_ := some "0xseaport", value := some "5", input_data := some sampleInputData }

/-- A 200 response with the given JSON body. -/
def okResponse {α : Type} (body : α) : HttpResponse α :=
  { status := 200, text := .ok "", json := .ok body }

/-- A response with the given status and no readable JSON body. -/
def statusResponse {α : Type} (status : Nat) : HttpResponse α :=
  { status := status, text := .ok "", json := .error (mkError "Unexpected end of JSON input") }

/-- A wallet provider that accepts every request. -/
def sampleWalletEnv : WalletEnv :=
  { hasEthereum := true, switchChain := .ok (), addChain := .ok (),
    requestAccounts := .ok (), getAddress := .ok "0xbuyer" }

/-- A wallet provider on which the user rejects the network switch (code 4001)
and accepts everything else. -/
def rejectingWalletEnv : WalletEnv :=
  { sampleWalletEnv with
    switchChain := .error ⟨JsCode.num 4001, some "User rejected the request."⟩ }

/-- A marketplace that knows the asset and answers the best-listing request
with `best`. -/
def sampleFetchEnv (best : Listing) : FetchEnv :=
  { fetchAsset := fun _ => .ok (okResponse ⟨some sampleNft⟩)
    fetchBest := fun _ => .ok (okResponse best)
    typeError := mkError "Cannot read properties of undefined" }

/-- An outside world in which the wallet holds `balance` wei, the marketplace
answers the fulfillment request with `fulfillment`, and the wallet answers
`sendTransaction` with `sent`. -/
def sampleBuyEnv (balance : Nat)
    (fulfillment : Except JsError (HttpResponse FulfillmentResponse))
    (sent : Except JsError TxResponse) : BuyEnv :=
  { getBalance := fun _ => .ok balance
    fetchFulfillment := fun _ => fulfillment
    encodeFunctionData := fun _ _ => .ok "0xe7acab24"
    sendTransaction := fun _ => sent
    toFixed4 := fun n => toString n
    typeError := mkError "Cannot read properties of undefined" }

def sampleFulfillment : Except JsError (HttpResponse FulfillmentResponse) :=
  .ok (okResponse ⟨some ⟨some sampleTxData⟩⟩)

def sampleSent : Except JsError TxResponse :=
  .ok { hash := "0xabc", wait := .ok () }

/-- The history: type both inputs, connect, search. -/
def sampleActions (best : Listing) : List Action :=
  [Action.setContractAddress "0xc0ffee", Action.setTokenId "7",
   Action.connectWallet sampleWalletEnv, Action.fetchNFT (sampleFetchEnv best)]

/-- The state after `sampleActions sampleListing`. -/
def sampleState : State :=
  { wallet := some "0xbuyer"
    provider := some Provider.web3
    contractAddress := "0xc0ffee"
    tokenId := "7"
    nft := some sampleNft
    listing := some sampleListing
    loading := false
    status := "NFT found with listing!"
    error := some "" }

/-- A best-listing body without an order hash: no active listing. -/
def noHashListing : Listing :=
  { order_hash := none, protocol_address := none, price := none }

/-- A wallet provider that does not know the chain yet (code 4902). -/
def unknownChainWalletEnv : WalletEnv :=
  { sampleWalletEnv with
    switchChain := .error ⟨JsCode.num 4902, some "Unrecognized chain ID"⟩ }

/-- A 2xx fulfillment response whose `fulfillment_data` has no transaction. -/
def noTransactionFulfillment : Except JsError (HttpResponse FulfillmentResponse) :=
  .ok (okResponse ⟨some ⟨none⟩⟩)

/-- A submission rejected with the revert selector of
`InsufficientNativeTokensSupplied`. -/
def revertedSent : Except JsError TxResponse :=
  .error ⟨JsCode.num (-32603), some "execution reverted: 0xa61be9f0"⟩

/-- An outside world in which the purchase of `sampleListing` goes through. -/
def successBuyEnv : BuyEnv :=
  sampleBuyEnv (5 + 10 ^ 17) sampleFulfillment sampleSent

/-! ## Theorems: network negotiation -/

/-- C3: `switchToApeChain` issues a `wallet_addEthereumChain` request exactly
when the switch request failed with code 4902; otherwise it issues none, and
it never issues more than one. -/
theorem switchToApeChain_add_iff_4902 (env : WalletEnv) :
    (addRequests (switchToApeChain env).2 = 1 ↔ failedWith4902 env.switchChain) ∧
    (¬ failedWith4902 env.switchChain → addRequests (switchToApeChain env).2 = 0) ∧
    addRequests (switchToApeChain env).2 ≤ 1 := by
  unfold switchToApeChain failedWith4902
  cases hs : env.switchChain with
  | ok u => simp [addRequests]
  | error e =>
    by_cases hc : e.code = JsCode.num 4902
    · cases ha : env.addChain <;> simp [hc, addRequests]
    · simp [hc, addRequests]

/-! ## Theorems: strings -/

/-- The search `includesList` finds exactly the contiguous occurrences. -/
theorem includesList_iff_occurs (frag l : List Char) :
    includesList frag l = true ↔ frag <:+: l := by
  induction l with
  | nil => simp [includesList, List.isEmpty_iff]
  | cons c cs ih =>
    simp only [includesList, Bool.or_eq_true, ih, List.infix_cons_iff,
      List.isPrefixOf_iff_prefix]

/-- A fragment that occurs in a string has all its characters in the string. -/
theorem includesList_mem (frag l : List Char) (h : includesList frag l = true)
    (c : Char) (hc : c ∈ frag) : c ∈ l :=
  ((includesList_iff_occurs frag l).mp h).subset hc

/-- The decimal digits of a remainder modulo ten are neither `b` nor `I`. -/
theorem digitChar_mod_ten (n : Nat) :
    Nat.digitChar (n % 10) ≠ 'b' ∧ Nat.digitChar (n % 10) ≠ 'I' := by
  have h : n % 10 < 10 := Nat.mod_lt _ (by decide)
  interval_cases n % 10 <;> decide

/-- The characters produced by the digit loop of `Nat.repr` are those of the
accumulator or decimal digits. -/
theorem toDigitsCore_chars (fuel : Nat) :
    ∀ (n : Nat) (acc : List Char),
      (∀ c ∈ acc, c ≠ 'b' ∧ c ≠ 'I') →
      ∀ c ∈ Nat.toDigitsCore 10 fuel n acc, c ≠ 'b' ∧ c ≠ 'I' := by
  induction fuel with
  | zero => intro n acc hacc c hc; simpa [Nat.toDigitsCore] using hacc c (by simpa [Nat.toDigitsCore] using hc)
  | succ f ih =>
    intro n acc hacc c hc
    simp only [Nat.toDigitsCore] at hc
    have hcons : ∀ c ∈ Nat.digitChar (n % 10) :: acc, c ≠ 'b' ∧ c ≠ 'I' := by
      intro d hd
      rcases List.mem_cons.mp hd with rfl | hd
      · exact digitChar_mod_ten n
      · exact hacc d hd
    split at hc
    · exact hcons c hc
    · exact ih _ _ hcons c hc

/-- The decimal text of a number contains neither `b` nor `I`. -/
theorem toString_nat_chars (n : Nat) (c : Char) (hc : c ∈ (toString n).data) :
    c ≠ 'b' ∧ c ≠ 'I' := by
  have : (toString n).data = Nat.toDigits 10 n := rfl
  rw [this] at hc
  exact toDigitsCore_chars _ _ _ (by simp) c hc

/-- The message of a failed fulfillment request is not classified as an
insufficient-funds revert, whatever the status. -/
theorem fulfillment_status_message_plain (n : Nat) :
    (jsIncludes (some ("Failed to get fulfillment data: " ++ toString n))
        "InsufficientNativeTokensSupplied" ||
      jsIncludes (some ("Failed to get fulfillment data: " ++ toString n)) "a61be9f0") =
      false := by
  rw [Bool.or_eq_false_iff]
  constructor
  · by_contra h
    have h2 := includesList_mem _ _ (by simpa [jsIncludes] using h) 'I' (by decide)
    simp only [List.mem_cons, Char.reduceEq, false_or] at h2
    exact (toString_nat_chars n _ h2).2 rfl
  · by_contra h
    have h2 := includesList_mem _ _ (by simpa [jsIncludes] using h) 'b' (by decide)
    simp only [List.mem_cons, Char.reduceEq, false_or] at h2
    exact (toString_nat_chars n _ h2).1 rfl

/-! ## Theorems: purchase -/

/-- Past the entry check, the trace of `buyNFT` is the trace of its `try`
block. -/
theorem buyNFT_trace (env : BuyEnv) (s : State) (listing : Listing)
    (wallet : String) (pr : Provider)
    (hl : s.listing = some listing) (hw : s.wallet = some wallet) (hne : wallet ≠ "")
    (hp : s.provider = some pr) :
    (buyNFT env s).2 = (buyNFTTry env s listing wallet).2.2 := by
  simp only [buyNFT, hl, hw, hp, hne, if_false]
  split <;> simp_all

/-- Past the entry check, the final state of `buyNFT` is the state left by the
`try` block, passed through `catch` when the block threw, with `loading`
reset by `finally`. -/
theorem buyNFT_state (env : BuyEnv) (s : State) (listing : Listing)
    (wallet : String) (pr : Provider)
    (hl : s.listing = some listing) (hw : s.wallet = some wallet) (hne : wallet ≠ "")
    (hp : s.provider = some pr) :
    (buyNFT env s).1 =
      { (match (buyNFTTry env s listing wallet).1 with
          | some err => buyNFTCatch err (buyNFTTry env s listing wallet).2.1
          | none => (buyNFTTry env s listing wallet).2.1) with loading := false } := by
  simp only [buyNFT, hl, hw, hp, hne, if_false]
  split <;> simp_all

/-- The entry check of `buyNFT` fails when the listing, the wallet address or
the provider is missing (the empty address counts as missing). -/
theorem buyNFT_rejected (env : BuyEnv) (s : State)
    (h : s.listing = none ∨ truthy s.wallet = false ∨ s.provider = none) :
    buyNFT env s = ({ s with error := some "No listing available" }, []) := by
  unfold buyNFT
  rcases h with h | h | h
  · simp [h]
  · cases hw : s.wallet with
    | none => simp
    | some w =>
      have : w = "" := by simpa [truthy, hw] using h
      split <;> simp_all
  · split <;> simp_all

/-- Either the entry check of `buyNFT` fails, or listing, wallet and provider
are all present. -/
theorem buyNFT_entry_cases (s : State) :
    (s.listing = none ∨ truthy s.wallet = false ∨ s.provider = none) ∨
    ∃ listing wallet pr, s.listing = some listing ∧ s.wallet = some wallet ∧
      wallet ≠ "" ∧ s.provider = some pr := by
  cases hl : s.listing with
  | none => exact Or.inl (Or.inl rfl)
  | some listing =>
    cases hp : s.provider with
    | none => exact Or.inl (Or.inr (Or.inr rfl))
    | some pr =>
      cases hw : s.wallet with
      | none => exact Or.inl (Or.inr (Or.inl rfl))
      | some w =>
        by_cases hne : w = ""
        · exact Or.inl (Or.inr (Or.inl (by simp [truthy, hne])))
        · exact Or.inr ⟨listing, w, pr, rfl, rfl, hne, rfl⟩

/-- The `catch` block never leaves the message of the pre-flight check. -/
theorem isInsufficientBalanceError_catch (err : JsError) (s : State) :
    isInsufficientBalanceError (buyNFTCatch err s).error = false := by
  unfold buyNFTCatch
  split
  · simp [isInsufficientBalanceError, List.isPrefixOf]
  · simp [isInsufficientBalanceError, jsConcat, String.data_append, List.isPrefixOf]

/-- The message of the pre-flight check is recognised as such. -/
theorem isInsufficientBalanceError_message (env : BuyEnv) (b p : Nat) :
    isInsufficientBalanceError (some (insufficientBalanceMessage env b p)) = true := by
  simp [isInsufficientBalanceError, insufficientBalanceMessage, String.data_append,
    List.isPrefixOf]

/-- A `try` block that hands a transaction to the signer has gone through
every earlier stage: sufficient balance, a 2xx fulfillment response with a
transaction and its input data, and a successful encoding. -/
theorem buyNFTTry_submitted (env : BuyEnv) (s : State) (listing : Listing) (wallet : String)
    (h : sentTransactions (buyNFTTry env s listing wallet).2.2 ≠ []) :
    ∃ b res data fd txData inputData calldata,
      env.getBalance wallet = .ok b ∧ b ≥ listingPrice listing + gasBuffer ∧
      env.fetchFulfillment (fulfillmentRequest listing wallet) = .ok res ∧
      res.ok = true ∧ res.json = .ok data ∧
      data.fulfillment_data = some fd ∧ fd.transaction = some txData ∧
      txData.input_data = some inputData ∧
      env.encodeFunctionData "fulfillAdvancedOrder"
        [inputData.advancedOrder, inputData.criteriaResolvers,
         inputData.fulfillerConduitKey, inputData.recipient] = .ok calldata ∧
      sentTransactions (buyNFTTry env s listing wallet).2.2 = [txRequest txData calldata] := by
  unfold buyNFTTry at h
  cases hb : env.getBalance wallet with
  | error e => simp [hb, sentTransactions] at h
  | ok b =>
    simp only [hb] at h
    by_cases hlt : b < listingPrice listing + gasBuffer
    · simp [hlt, sentTransactions] at h
    · simp only [hlt, if_false] at h
      cases hf : env.fetchFulfillment (fulfillmentRequest listing wallet) with
      | error e => simp [hf, sentTransactions] at h
      | ok res =>
        simp only [hf] at h
        cases hok : res.ok with
        | false =>
          simp only [hok, Bool.not_false, if_true] at h
          split at h <;> simp [sentTransactions] at h
        | true =>
          simp only [hok, Bool.not_true, Bool.false_eq_true, if_false] at h
          cases hj : res.json with
          | error e => simp [hj, sentTransactions] at h
          | ok data =>
            simp only [hj] at h
            cases hfd : data.fulfillment_data with
            | none => simp [hfd, sentTransactions] at h
            | some fd =>
              cases htx : fd.transaction with
              | none => simp [hfd, htx, sentTransactions] at h
              | some txData =>
                simp only [hfd, htx, Option.bind] at h
                cases hin : txData.input_data with
                | none => simp [hin, sentTransactions] at h
                | some inputData =>
                  simp only [hin] at h
                  cases henc : env.encodeFunctionData "fulfillAdvancedOrder"
                      [inputData.advancedOrder, inputData.criteriaResolvers,
                       inputData.fulfillerConduitKey, inputData.recipient] with
                  | error e => simp [henc, sentTransactions] at h
                  | ok calldata =>
                    refine ⟨b, res, data, fd, txData, inputData, calldata, rfl,
                      by omega, rfl, hok, hj, hfd, htx, hin, henc, ?_⟩
                    simp only [buyNFTTry, hb, hlt, hf, hok, hj, hfd, htx, hin, henc,
                      Option.bind, if_false, Bool.not_true, Bool.false_eq_true]
                    repeat' split
                    all_goals simp [sentTransactions]

/-- The `try` block from the point where the transaction is handed to the
signer, all earlier stages having succeeded. -/
theorem buyNFTTry_at_submission (env : BuyEnv) (s : State) (listing : Listing)
    (wallet : String) (b : Nat) (res : HttpResponse FulfillmentResponse)
    (data : FulfillmentResponse) (fd : FulfillmentData) (txData : TxData)
    (inputData : InputData) (calldata : String)
    (hb : env.getBalance wallet = .ok b) (hge : b ≥ listingPrice listing + gasBuffer)
    (hf : env.fetchFulfillment (fulfillmentRequest listing wallet) = .ok res)
    (hok : res.ok = true) (hj : res.json = .ok data)
    (hfd : data.fulfillment_data = some fd) (htx : fd.transaction = some txData)
    (hin : txData.input_data = some inputData)
    (henc : env.encodeFunctionData "fulfillAdvancedOrder"
        [inputData.advancedOrder, inputData.criteriaResolvers,
         inputData.fulfillerConduitKey, inputData.recipient] = .ok calldata) :
    buyNFTTry env s listing wallet =
      match env.sendTransaction (txRequest txData calldata) with
      | .error e =>
        (some e,
          { s with loading := true, error := some "", status := "Confirm in MetaMask..." },
          [Event.status "Checking balance...", Event.getBalance wallet,
           Event.status "Preparing purchase...",
           Event.postFulfillment fulfillmentUrl (fulfillmentRequest listing wallet),
           Event.status "Confirm in MetaMask...",
           Event.sendTransaction (txRequest txData calldata)])
      | .ok tx =>
        match tx.wait with
        | .error e =>
          (some e,
            { s with loading := true, error := some "", status := "TX sent! " ++ tx.hash },
            [Event.status "Checking balance...", Event.getBalance wallet,
             Event.status "Preparing purchase...",
             Event.postFulfillment fulfillmentUrl (fulfillmentRequest listing wallet),
             Event.status "Confirm in MetaMask...",
             Event.sendTransaction (txRequest txData calldata),
             Event.status ("TX sent! " ++ tx.hash), Event.txWait tx.hash])
        | .ok _ =>
          (none,
            { s with loading := true, error := some "",
                     status := "Purchase complete! " ++ tx.hash },
            [Event.status "Checking balance...", Event.getBalance wallet,
             Event.status "Preparing purchase...",
             Event.postFulfillment fulfillmentUrl (fulfillmentRequest listing wallet),
             Event.status "Confirm in MetaMask...",
             Event.sendTransaction (txRequest txData calldata),
             Event.status ("TX sent! " ++ tx.hash), Event.txWait tx.hash,
             Event.status ("Purchase complete! " ++ tx.hash)]) := by
  have hlt : ¬ b < listingPrice listing + gasBuffer := by omega
  simp only [buyNFTTry, hb, hlt, hf, hok, hj, hfd, htx, hin, henc,
    Option.bind, if_false, Bool.not_true, Bool.false_eq_true]
  repeat' split
  all_goals simp_all

/-- The `catch` block sets one of the two failure messages. -/
theorem buyNFTCatch_error_cases (err : JsError) (s : State) :
    (buyNFTCatch err s).error = some "Insufficient APE balance for this purchase" ∨
    ∃ m, (buyNFTCatch err s).error = some ("Failed: " ++ m) := by
  unfold buyNFTCatch
  split
  · exact Or.inl rfl
  · exact Or.inr ⟨_, rfl⟩

/-- The `catch` block on an error with message `m`: the insufficient-funds
message when `m` contains one of the two fragments, the generic one otherwise. -/
theorem buyNFTCatch_error (err : JsError) (s : State) (m : String)
    (hm : err.message = some m) :
    (("InsufficientNativeTokensSupplied".data <:+: m.data ∨ "a61be9f0".data <:+: m.data) →
      (buyNFTCatch err s).error = some "Insufficient APE balance for this purchase") ∧
    (¬ "InsufficientNativeTokensSupplied".data <:+: m.data ∧ ¬ "a61be9f0".data <:+: m.data →
      (buyNFTCatch err s).error = some ("Failed: " ++ m)) := by
  have h1 : jsIncludes err.message "InsufficientNativeTokensSupplied" = true ↔
      "InsufficientNativeTokensSupplied".data <:+: m.data := by
    rw [hm]; exact includesList_iff_occurs _ _
  have h2 : jsIncludes err.message "a61be9f0" = true ↔ "a61be9f0".data <:+: m.data := by
    rw [hm]; exact includesList_iff_occurs _ _
  have h3 : (jsIncludes err.message "InsufficientNativeTokensSupplied" ||
        jsIncludes err.message "a61be9f0") = true ↔
      ("InsufficientNativeTokensSupplied".data <:+: m.data ∨ "a61be9f0".data <:+: m.data) := by
    rw [Bool.or_eq_true, h1, h2]
  unfold buyNFTCatch
  constructor
  · intro h
    rw [if_pos (h3.mpr h)]
  · intro h
    rw [if_neg (fun hh => by have := h3.mp hh; tauto)]
    simp [jsConcat, hm]

/-- The generic failure message differs from the insufficient-funds one. -/
theorem failed_ne_insufficient (m : String) :
    some "Insufficient APE balance for this purchase" ≠ some ("Failed: " ++ m) := by
  intro h
  have h2 := congrArg (fun o => o.map fun (t : String) => t.data.head?) h
  simp [String.data_append] at h2

/-- C1: with a wallet balance `b` and a listing price `p` (the value of
`listing.price.current.value`, 0 when that field is absent), the balance check
of `buyNFT` passes, that is the run goes on to `Preparing purchase...` and ends
without the `Insufficient balance!` error, exactly when `b >= p + gasBuffer`,
with `gasBuffer = 10^17`; so `b = p + 10^17` passes and `b = p + 10^17 - 1`
does not. -/
theorem buyNFT_balance_check_iff (env : BuyEnv) (s : State) (listing : Listing)
    (wallet : String) (pr : Provider) (b : Nat)
    (hl : s.listing = some listing) (hw : s.wallet = some wallet) (hne : wallet ≠ "")
    (hp : s.provider = some pr) (hb : env.getBalance wallet = .ok b) :
    gasBuffer = 10 ^ 17 ∧
    ("Preparing purchase..." ∈ statuses (buyNFT env s).2 ↔
      b ≥ listingPrice listing + gasBuffer) ∧
    (isInsufficientBalanceError (buyNFT env s).1.error = false ↔
      b ≥ listingPrice listing + gasBuffer) ∧
    listingPrice listing =
      (((listing.price.bind (·.current)).bind (·.value)).getD 0) := by
  refine ⟨rfl, ?_, ?_, ?_⟩
  · rw [buyNFT_trace env s listing wallet pr hl hw hne hp]
    unfold buyNFTTry
    simp only [hb]
    by_cases hlt : b < listingPrice listing + gasBuffer
    · simp [hlt, statuses]
    · simp only [hlt, if_false]
      have hge : b ≥ listingPrice listing + gasBuffer := by omega
      simp only [hge, iff_true]
      repeat' split
      all_goals simp [statuses]
  · rw [buyNFT_state env s listing wallet pr hl hw hne hp]
    unfold buyNFTTry
    simp only [hb]
    by_cases hlt : b < listingPrice listing + gasBuffer
    · simp [hlt, isInsufficientBalanceError_message]
    · simp only [hlt, if_false]
      have hge : b ≥ listingPrice listing + gasBuffer := by omega
      simp only [hge, iff_true]
      repeat' split
      all_goals first
        | exact isInsufficientBalanceError_catch _ _
        | simp_all [isInsufficientBalanceError]
  · unfold listingPrice
    cases listing.price with
    | none => rfl
    | some p =>
      cases hcur : p.current with
      | none => simp [hcur]
      | some c => simp [hcur]

/-- C2: in a run of `buyNFT` the POST to `/listings/fulfillment_data` is issued
only after the balance query of the same run returned a balance of at least
price plus gas buffer (the POST is then the fourth event, right after the
balance query and the `Preparing purchase...` status, and it is the only one);
when the balance is below the needed amount, in particular below the price,
the run issues no fulfillment-data request and no `sendTransaction`. -/
theorem buyNFT_fulfillment_only_after_balance_ok (env : BuyEnv) (s : State) :
    (fulfillmentPosts (buyNFT env s).2 ≠ [] →
      ∃ listing wallet b, s.listing = some listing ∧ s.wallet = some wallet ∧
        env.getBalance wallet = .ok b ∧ b ≥ listingPrice listing + gasBuffer ∧
        (buyNFT env s).2.take 4 =
          [Event.status "Checking balance...", Event.getBalance wallet,
           Event.status "Preparing purchase...",
           Event.postFulfillment fulfillmentUrl (fulfillmentRequest listing wallet)] ∧
        fulfillmentPosts (buyNFT env s).2 = [fulfillmentRequest listing wallet]) ∧
    (∀ listing wallet b, s.listing = some listing → s.wallet = some wallet →
      env.getBalance wallet = .ok b →
      (b < listingPrice listing + gasBuffer ∨ b < listingPrice listing) →
      fulfillmentPosts (buyNFT env s).2 = [] ∧ sentTransactions (buyNFT env s).2 = []) := by
  rcases buyNFT_entry_cases s with hrej | ⟨listing, wallet, pr, hl, hw, hne, hp⟩
  · rw [buyNFT_rejected env s hrej]
    simp [fulfillmentPosts, sentTransactions]
  · rw [buyNFT_trace env s listing wallet pr hl hw hne hp]
    unfold buyNFTTry
    cases hb : env.getBalance wallet with
    | error e => simp [hl, hw, hb, fulfillmentPosts, sentTransactions]
    | ok b =>
      by_cases hlt : b < listingPrice listing + gasBuffer
      · simp [hl, hw, hb, hlt, fulfillmentPosts, sentTransactions]
      · have hge : b ≥ listingPrice listing + gasBuffer := by omega
        refine ⟨fun _ => ⟨listing, wallet, b, hl, hw, hb, hge, ?_, ?_⟩, ?_⟩
        · simp only [hlt, if_false]
          repeat' split
          all_goals simp
        · simp only [hlt, if_false]
          repeat' split
          all_goals simp [fulfillmentPosts]
        · intro l2 w2 b2 hl2 hw2 hb2 hlow
          rw [hl] at hl2
          rw [hw] at hw2
          cases hl2
          cases hw2
          rw [hb] at hb2
          cases hb2
          omega

/-- Witness of C1 at the boundary: with price 5, the balance `5 + 10^17`
passes the check and the balance `5 + 10^17 - 1` does not. -/
theorem buyNFT_balance_check_iff_witness :
    "Preparing purchase..." ∈
        statuses (buyNFT (sampleBuyEnv (5 + 10 ^ 17) sampleFulfillment sampleSent)
          sampleState).2 ∧
    "Preparing purchase..." ∉
        statuses (buyNFT (sampleBuyEnv (5 + 10 ^ 17 - 1) sampleFulfillment sampleSent)
          sampleState).2 :=
  ⟨(buyNFT_balance_check_iff (sampleBuyEnv (5 + 10 ^ 17) sampleFulfillment sampleSent)
      sampleState sampleListing "0xbuyer" Provider.web3 (5 + 10 ^ 17)
      rfl rfl (by decide) rfl rfl).2.1.mpr (by decide),
   fun h => absurd
    ((buyNFT_balance_check_iff (sampleBuyEnv (5 + 10 ^ 17 - 1) sampleFulfillment sampleSent)
      sampleState sampleListing "0xbuyer" Provider.web3 (5 + 10 ^ 17 - 1)
      rfl rfl (by decide) rfl rfl).2.1.mp h) (by decide)⟩

/-- Witness of C2: with price 5 and balance 4 the run issues no
fulfillment-data request and sends no transaction. -/
theorem buyNFT_fulfillment_only_after_balance_ok_witness :
    fulfillmentPosts (buyNFT (sampleBuyEnv 4 sampleFulfillment sampleSent) sampleState).2 = [] ∧
    sentTransactions (buyNFT (sampleBuyEnv 4 sampleFulfillment sampleSent) sampleState).2 = [] :=
  (buyNFT_fulfillment_only_after_balance_ok (sampleBuyEnv 4 sampleFulfillment sampleSent)
    sampleState).2 sampleListing "0xbuyer" 4 rfl rfl rfl (Or.inr (by decide))

/-- C4, evaluated: when the user rejects the network switch (code 4001),
`switchToApeChain` resolves normally after the single switch request instead
of failing with the rejection, and `connectWallet` goes on to request the
accounts and reports `Connected on ApeChain` with no error. -/
theorem switchToApeChain_swallows_rejection :
    switchToApeChain rejectingWalletEnv =
      (.ok (), [Event.switchEthereumChain "0x8173"]) ∧
    switchRequests (switchToApeChain rejectingWalletEnv).2 = 1 ∧
    (connectWallet rejectingWalletEnv initialState).2 =
      [Event.switchEthereumChain "0x8173", Event.requestAccounts, Event.getAddress,
       Event.status "Connected on ApeChain"] ∧
    (connectWallet rejectingWalletEnv initialState).1.status = "Connected on ApeChain" ∧
    (connectWallet rejectingWalletEnv initialState).1.error = some "" ∧
    (connectWallet rejectingWalletEnv initialState).1.wallet = some "0xbuyer" :=
  ⟨rfl, rfl, rfl, rfl, rfl, rfl⟩

/-! ## Theorems: listing discovery -/

/-- C5: in a `fetchNFT` run with both inputs filled in, a 2xx best-listing
response whose body has no `order_hash` leaves the listing absent and the
error empty and sets the status `NFT found - no active listing`, and a
`buyNFT` started in that state is rejected without any request; whenever the
run records a listing, that listing carries a non-empty order hash. -/
theorem fetchNFT_no_order_hash (env : FetchEnv) (benv : BuyEnv) (s : State)
    (hc : s.contractAddress ≠ "") (ht : s.tokenId ≠ "") :
    (∀ (nft : Nft) (res : HttpResponse Listing) (listingsRes : Listing),
      apiCall env.fetchAsset (assetEndpoint s.contractAddress s.tokenId) = .ok ⟨some nft⟩ →
      env.fetchBest (API_BASE ++ bestListingEndpoint nft.collection s.tokenId) = .ok res →
      res.ok = true → res.json = .ok listingsRes → listingsRes.order_hash = none →
        (fetchNFT env s).1.listing = none ∧
        (fetchNFT env s).1.error = some "" ∧
        (fetchNFT env s).1.status = "NFT found - no active listing" ∧
        (fetchNFT env s).1.nft = some nft ∧
        buyNFT benv (fetchNFT env s).1 =
          ({ (fetchNFT env s).1 with error := some "No listing available" }, [])) ∧
    (∀ l, (fetchNFT env s).1.listing = some l →
      ∃ h, l.order_hash = some h ∧ h ≠ "") := by
  constructor
  · intro nft res listingsRes hasset hbest hok hjson hno
    have hcall : apiCall env.fetchBest (bestListingEndpoint nft.collection s.tokenId) =
        .ok listingsRes := by
      simp [apiCall, hbest, hok, hjson]
    have hrun : fetchNFT env s =
        ({ s with loading := false, error := some "", nft := some nft, listing := none,
                  status := "NFT found - no active listing" },
          [Event.apiGet (API_BASE ++ assetEndpoint s.contractAddress s.tokenId),
           Event.apiGet (API_BASE ++ bestListingEndpoint nft.collection s.tokenId),
           Event.status "NFT found - no active listing"]) := by
      simp [fetchNFT, hc, ht, hasset, hcall, hno, truthy]
    rw [hrun]
    refine ⟨rfl, rfl, rfl, rfl, ?_⟩
    exact buyNFT_rejected benv _ (Or.inl rfl)
  · intro l hl
    unfold fetchNFT at hl
    simp only [hc, ht, or_self, if_false] at hl
    repeat' split at hl
    all_goals simp at hl
    rename_i listingsRes _ htruthy
    subst hl
    cases hoh : listingsRes.order_hash with
    | none => simp [truthy, hoh] at htruthy
    | some h =>
      refine ⟨h, rfl, ?_⟩
      simpa [truthy, hoh] using htruthy

/-! ## Theorems: fulfillment data, submission and failure classification -/

/-- C6: after a passed balance check, a 2xx fulfillment response whose body
has no `fulfillment_data` or no `fulfillment_data.transaction` ends the run
with the error `Failed: No transaction data returned` and without any
`sendTransaction`; a non-2xx response also ends the run with a failure
message and without any `sendTransaction` (the message is
`Failed: Failed to get fulfillment data: <status>` when the body can be read). -/
theorem buyNFT_missing_transaction (env : BuyEnv) (s : State) (listing : Listing)
    (wallet : String) (pr : Provider) (b : Nat) (res : HttpResponse FulfillmentResponse)
    (hl : s.listing = some listing) (hw : s.wallet = some wallet) (hne : wallet ≠ "")
    (hp : s.provider = some pr)
    (hb : env.getBalance wallet = .ok b) (hge : b ≥ listingPrice listing + gasBuffer)
    (hf : env.fetchFulfillment (fulfillmentRequest listing wallet) = .ok res) :
    (res.ok = true → ∀ data, res.json = .ok data →
      (data.fulfillment_data = none ∨
        ∃ fd, data.fulfillment_data = some fd ∧ fd.transaction = none) →
      (buyNFT env s).1.error = some "Failed: No transaction data returned" ∧
      sentTransactions (buyNFT env s).2 = [] ∧
      statuses (buyNFT env s).2 = ["Checking balance...", "Preparing purchase..."]) ∧
    (res.ok = false →
      sentTransactions (buyNFT env s).2 = [] ∧
      statuses (buyNFT env s).2 = ["Checking balance...", "Preparing purchase..."] ∧
      ((buyNFT env s).1.error = some "Insufficient APE balance for this purchase" ∨
        ∃ m, (buyNFT env s).1.error = some ("Failed: " ++ m)) ∧
      (∀ body, res.text = .ok body →
        (buyNFT env s).1.error =
          some ("Failed: Failed to get fulfillment data: " ++ toString res.status))) := by
  have hlt : ¬ b < listingPrice listing + gasBuffer := by omega
  rw [buyNFT_trace env s listing wallet pr hl hw hne hp,
    buyNFT_state env s listing wallet pr hl hw hne hp]
  constructor
  · intro hok data hj hmiss
    have hbind : data.fulfillment_data.bind (·.transaction) = none := by
      rcases hmiss with h | ⟨fd, h1, h2⟩
      · simp [h]
      · simp [h1, h2]
    have hrun : buyNFTTry env s listing wallet =
        (some (mkError "No transaction data returned"),
          { s with loading := true, error := some "", status := "Preparing purchase..." },
          [Event.status "Checking balance...", Event.getBalance wallet,
           Event.status "Preparing purchase...",
           Event.postFulfillment fulfillmentUrl (fulfillmentRequest listing wallet)]) := by
      simp [buyNFTTry, hb, hlt, hf, hok, hj, hbind]
    rw [hrun]
    refine ⟨?_, rfl, rfl⟩
    have hplain : (jsIncludes (mkError "No transaction data returned").message
          "InsufficientNativeTokensSupplied" ||
        jsIncludes (mkError "No transaction data returned").message "a61be9f0") = false := by
      decide
    simp only [buyNFTCatch, hplain, Bool.false_eq_true, if_false]
    rfl
  · intro hok
    cases htext : res.text with
    | error e =>
      have hrun : buyNFTTry env s listing wallet =
          (some e,
            { s with loading := true, error := some "", status := "Preparing purchase..." },
            [Event.status "Checking balance...", Event.getBalance wallet,
             Event.status "Preparing purchase...",
             Event.postFulfillment fulfillmentUrl (fulfillmentRequest listing wallet)]) := by
        simp [buyNFTTry, hb, hlt, hf, hok, htext]
      rw [hrun]
      refine ⟨rfl, rfl, ?_, ?_⟩
      · exact buyNFTCatch_error_cases _ _
      · intro body hbody
        cases hbody
    | ok body =>
      have hrun : buyNFTTry env s listing wallet =
          (some (mkError ("Failed to get fulfillment data: " ++ toString res.status)),
            { s with loading := true, error := some "", status := "Preparing purchase..." },
            [Event.status "Checking balance...", Event.getBalance wallet,
             Event.status "Preparing purchase...",
             Event.postFulfillment fulfillmentUrl (fulfillmentRequest listing wallet)]) := by
        simp [buyNFTTry, hb, hlt, hf, hok, htext]
      rw [hrun]
      refine ⟨rfl, rfl, ?_, ?_⟩
      · exact buyNFTCatch_error_cases _ _
      · intro _ _
        simp only [buyNFTCatch, mkError, fulfillment_status_message_plain,
          Bool.false_eq_true, if_false, jsConcat, Option.getD]
        rw [← String.append_assoc]
        rfl

/-- C7: when a run of `buyNFT` has handed a transaction to the signer and the
submission fails (the send is rejected, or the confirmation wait is) with an
error whose message contains `InsufficientNativeTokensSupplied` or `a61be9f0`,
the run ends with the error `Insufficient APE balance for this purchase` and
not with `Failed: ` followed by the message; when the message contains neither
fragment, the error is `Failed: ` followed by the message. -/
theorem buyNFT_submission_failure_classified (env : BuyEnv) (s : State) (req : TxRequest)
    (err : JsError) (m : String)
    (hsent : sentTransactions (buyNFT env s).2 = [req])
    (hfail : env.sendTransaction req = .error err ∨
      ∃ tx, env.sendTransaction req = .ok tx ∧ tx.wait = .error err)
    (hm : err.message = some m) :
    (("InsufficientNativeTokensSupplied".data <:+: m.data ∨ "a61be9f0".data <:+: m.data) →
      (buyNFT env s).1.error = some "Insufficient APE balance for this purchase" ∧
      (buyNFT env s).1.error ≠ some ("Failed: " ++ m)) ∧
    (¬ "InsufficientNativeTokensSupplied".data <:+: m.data ∧ ¬ "a61be9f0".data <:+: m.data →
      (buyNFT env s).1.error = some ("Failed: " ++ m)) := by
  rcases buyNFT_entry_cases s with hrej | ⟨listing, wallet, pr, hl, hw, hne, hp⟩
  · rw [buyNFT_rejected env s hrej] at hsent
    simp [sentTransactions] at hsent
  · rw [buyNFT_trace env s listing wallet pr hl hw hne hp] at hsent
    obtain ⟨b, res, data, fd, txData, inputData, calldata, hb, hge, hf, hok, hj, hfd, htx,
      hin, henc, hreq⟩ := buyNFTTry_submitted env s listing wallet (by rw [hsent]; simp)
    have hr : req = txRequest txData calldata := by
      rw [hsent] at hreq
      simpa using hreq
    subst hr
    have herr : (buyNFT env s).1.error =
        (buyNFTCatch err
          { s with loading := true, error := some "", status := "Confirm in MetaMask..." }).error := by
      rw [buyNFT_state env s listing wallet pr hl hw hne hp,
        buyNFTTry_at_submission env s listing wallet b res data fd txData inputData calldata
          hb hge hf hok hj hfd htx hin henc]
      rcases hfail with hfail | ⟨tx, hfail, hwait⟩
      · simp [hfail, buyNFTCatch]
      · simp only [hfail, hwait, buyNFTCatch]
        split <;> rfl
    rw [herr]
    have hc := buyNFTCatch_error err
      { s with loading := true, error := some "", status := "Confirm in MetaMask..." } m hm
    refine ⟨fun h => ⟨hc.1 h, ?_⟩, hc.2⟩
    rw [hc.1 h]
    exact failed_ne_insufficient m

/-- C10: a run of `buyNFT` that reaches submission sends exactly one
transaction; its `to` and `value` are those of the transaction of the
fulfillment payload, its `gasLimit` is 350000 and its `data` is the encoding
of `fulfillAdvancedOrder` applied to the payload's `advancedOrder`,
`criteriaResolvers`, `fulfillerConduitKey` and `recipient`, in that order. When
the send and the confirmation wait both succeed, the status lines of the run
are `Checking balance...`, `Preparing purchase...`, `Confirm in MetaMask...`,
`TX sent! <hash>`, `Purchase complete! <hash>`, in that order. -/
theorem buyNFT_sends_one_transaction (env : BuyEnv) (s : State)
    (hreach : sentTransactions (buyNFT env s).2 ≠ []) :
    (∃ listing wallet res data fd txData inputData calldata,
      s.listing = some listing ∧ s.wallet = some wallet ∧
      env.fetchFulfillment (fulfillmentRequest listing wallet) = .ok res ∧
      res.json = .ok data ∧ data.fulfillment_data = some fd ∧
      fd.transaction = some txData ∧ txData.input_data = some inputData ∧
      env.encodeFunctionData "fulfillAdvancedOrder"
        [inputData.advancedOrder, inputData.criteriaResolvers,
         inputData.fulfillerConduitKey, inputData.recipient] = .ok calldata ∧
      sentTransactions (buyNFT env s).2 =
        [{ to_ := txData.to_, data := calldata, value := txData.value, gasLimit := 350000 }]) ∧
    (∀ req tx, sentTransactions (buyNFT env s).2 = [req] →
      env.sendTransaction req = .ok tx → tx.wait = .ok () →
      statuses (buyNFT env s).2 =
        ["Checking balance...", "Preparing purchase...", "Confirm in MetaMask...",
         "TX sent! " ++ tx.hash, "Purchase complete! " ++ tx.hash] ∧
      (buyNFT env s).1.status = "Purchase complete! " ++ tx.hash ∧
      (buyNFT env s).1.error = some "") := by
  rcases buyNFT_entry_cases s with hrej | ⟨listing, wallet, pr, hl, hw, hne, hp⟩
  · rw [buyNFT_rejected env s hrej] at hreach
    simp [sentTransactions] at hreach
  · rw [buyNFT_trace env s listing wallet pr hl hw hne hp] at hreach
    obtain ⟨b, res, data, fd, txData, inputData, calldata, hb, hge, hf, hok, hj, hfd, htx,
      hin, henc, hreq⟩ := buyNFTTry_submitted env s listing wallet hreach
    rw [buyNFT_trace env s listing wallet pr hl hw hne hp,
      buyNFT_state env s listing wallet pr hl hw hne hp]
    refine ⟨⟨listing, wallet, res, data, fd, txData, inputData, calldata, hl, hw, hf, hj,
      hfd, htx, hin, henc, hreq⟩, ?_⟩
    intro req tx hsent hsend hwait
    have hr : req = txRequest txData calldata := by
      rw [hsent] at hreq
      simpa using hreq
    subst hr
    rw [buyNFTTry_at_submission env s listing wallet b res data fd txData inputData calldata
      hb hge hf hok hj hfd htx hin henc]
    simp [hsend, hwait, statuses]

/-! ## Theorems: the stored listing across runs -/

/-- The `catch` block of `buyNFT` only writes the error cell. -/
theorem buyNFTCatch_keeps (err : JsError) (s : State) :
    (buyNFTCatch err s).listing = s.listing ∧ (buyNFTCatch err s).nft = s.nft ∧
    (buyNFTCatch err s).wallet = s.wallet ∧ (buyNFTCatch err s).provider = s.provider := by
  unfold buyNFTCatch
  split <;> exact ⟨rfl, rfl, rfl, rfl⟩

/-- The `try` block of `buyNFT` leaves the listing and the asset record as
they were. -/
theorem buyNFTTry_keeps (env : BuyEnv) (s : State) (listing : Listing) (wallet : String) :
    (buyNFTTry env s listing wallet).2.1.listing = s.listing ∧
    (buyNFTTry env s listing wallet).2.1.nft = s.nft := by
  unfold buyNFTTry
  dsimp only
  repeat' split
  all_goals exact ⟨rfl, rfl⟩

/-- No run of `buyNFT` changes the stored listing or the asset record, whatever
its outcome. -/
theorem buyNFT_keeps_listing (env : BuyEnv) (s : State) :
    (buyNFT env s).1.listing = s.listing ∧ (buyNFT env s).1.nft = s.nft := by
  rcases buyNFT_entry_cases s with hrej | ⟨listing, wallet, pr, hl, hw, hne, hp⟩
  · rw [buyNFT_rejected env s hrej]
    exact ⟨rfl, rfl⟩
  · rw [buyNFT_state env s listing wallet pr hl hw hne hp]
    have hk := buyNFTTry_keeps env s listing wallet
    cases hr : (buyNFTTry env s listing wallet).1 with
    | none => exact hk
    | some err =>
      have hc := buyNFTCatch_keeps err (buyNFTTry env s listing wallet).2.1
      exact ⟨hc.1.trans hk.1, hc.2.1.trans hk.2⟩

/-- No run of `connectWallet` changes the stored listing or the asset record. -/
theorem connectWallet_keeps_listing (env : WalletEnv) (s : State) :
    (connectWallet env s).1.listing = s.listing ∧ (connectWallet env s).1.nft = s.nft := by
  unfold connectWallet
  dsimp only
  repeat' split
  all_goals exact ⟨rfl, rfl⟩

/-- A `fetchNFT` run with an empty input leaves the state as it was, up to the
error cell, and issues no request. -/
theorem fetchNFT_rejected (env : FetchEnv) (s : State)
    (h : s.contractAddress = "" ∨ s.tokenId = "") :
    fetchNFT env s = ({ s with error := some "Enter contract + token ID" }, []) := by
  simp [fetchNFT, h]

/-- A `fetchNFT` run with both inputs filled in ends with no listing, or with
the listing answered in this run for the asset record answered in this run. -/
theorem fetchNFT_listing_cases (env : FetchEnv) (s : State)
    (hc : s.contractAddress ≠ "") (ht : s.tokenId ≠ "") :
    (fetchNFT env s).1.listing = none ∨
    ∃ nft l,
      apiCall env.fetchAsset (assetEndpoint s.contractAddress s.tokenId) = .ok ⟨some nft⟩ ∧
      apiCall env.fetchBest (bestListingEndpoint nft.collection s.tokenId) = .ok l ∧
      (fetchNFT env s).1.nft = some nft ∧ (fetchNFT env s).1.listing = some l := by
  unfold fetchNFT
  simp only [hc, ht, or_self, if_false]
  cases ha : apiCall env.fetchAsset (assetEndpoint s.contractAddress s.tokenId) with
  | error e => exact Or.inl rfl
  | ok asset =>
    cases asset with
    | mk onft =>
      cases onft with
      | none => exact Or.inl rfl
      | some nft =>
        cases hbest : apiCall env.fetchBest (bestListingEndpoint nft.collection s.tokenId) with
        | error e => simp [hbest]
        | ok l =>
          by_cases htr : truthy l.order_hash = true
          · exact Or.inr ⟨nft, l, rfl, hbest, by simp [hbest, htr], by simp [hbest, htr]⟩
          · simp [hbest, htr]

/-- Running a history extended by one action is one more step. -/
theorem run_snoc (s : State) (acts : List Action) (a : Action) :
    run s (acts ++ [a]) = step (run s acts) a := by
  simp [run, List.foldl_append]

/-- Provenance of a listing survives the extension of the history. -/
theorem FetchedFor.snoc {acts : List Action} {nft : Nft} {l : Listing}
    (h : FetchedFor acts nft l) (a : Action) : FetchedFor (acts ++ [a]) nft l := by
  obtain ⟨pre, env, post, hacts, h1, h2⟩ := h
  exact ⟨pre, env, post ++ [a], by simp [hacts], h1, h2⟩

/-- In every state reached from the initial state, a stored listing comes with
a stored asset record, and it is the listing fetched for that record. -/
theorem reachable_listing_fetched (acts : List Action) :
    ∀ l, (run initialState acts).listing = some l →
      ∃ nft, (run initialState acts).nft = some nft ∧ FetchedFor acts nft l := by
  induction acts using List.reverseRecOn with
  | nil => intro l h; simp [run, initialState] at h
  | append_singleton acts a ih =>
    intro l h
    rw [run_snoc] at h ⊢
    have keep : ∀ s2 : State, s2.listing = (run initialState acts).listing →
        s2.nft = (run initialState acts).nft → s2.listing = some l →
        ∃ nft, s2.nft = some nft ∧ FetchedFor (acts ++ [a]) nft l := by
      intro s2 h1 h2 h3
      obtain ⟨nft, hn, hf⟩ := ih l (h1 ▸ h3)
      exact ⟨nft, h2.trans hn, hf.snoc a⟩
    cases a with
    | setContractAddress v => exact keep _ rfl rfl h
    | setTokenId v => exact keep _ rfl rfl h
    | connectWallet env =>
      exact keep _ (connectWallet_keeps_listing env _).1 (connectWallet_keeps_listing env _).2 h
    | buyNFT env =>
      exact keep _ (buyNFT_keeps_listing env _).1 (buyNFT_keeps_listing env _).2 h
    | fetchNFT env =>
      by_cases hin : (run initialState acts).contractAddress = "" ∨
          (run initialState acts).tokenId = ""
      · refine keep _ ?_ ?_ h
        · simp only [step, fetchNFT_rejected env _ hin]
        · simp only [step, fetchNFT_rejected env _ hin]
      · have hc : (run initialState acts).contractAddress ≠ "" := fun hh => hin (Or.inl hh)
        have ht : (run initialState acts).tokenId ≠ "" := fun hh => hin (Or.inr hh)
        simp only [step] at h ⊢
        rcases fetchNFT_listing_cases env _ hc ht with hnone | ⟨nft, l2, ha, hb, hn, hl⟩
        · rw [hnone] at h
          cases h
        · rw [hl] at h
          cases h
          exact ⟨nft, hn, acts, env, [], rfl, ha, hb⟩

/-- C8: in every state reached from the initial state by a sequence of input
edits and of `connectWallet`, `fetchNFT` and `buyNFT` runs, a `buyNFT` run
queries the balance only if the wallet address, the provider, the asset record
and the listing are all present, the listing being the one fetched for that
asset record; when one of them is missing the run only sets the error
`No listing available` and issues no request. -/
theorem buyNFT_entry_requires_session_asset_listing (acts : List Action) (env : BuyEnv) :
    ((∃ w, Event.getBalance w ∈ (buyNFT env (run initialState acts)).2) →
      ∃ wallet pr nft l,
        (run initialState acts).wallet = some wallet ∧ wallet ≠ "" ∧
        (run initialState acts).provider = some pr ∧
        (run initialState acts).nft = some nft ∧
        (run initialState acts).listing = some l ∧
        FetchedFor acts nft l) ∧
    ((truthy (run initialState acts).wallet = false ∨
        (run initialState acts).provider = none ∨
        (run initialState acts).nft = none ∨
        (run initialState acts).listing = none) →
      buyNFT env (run initialState acts) =
        ({ run initialState acts with error := some "No listing available" }, [])) := by
  constructor
  · rintro ⟨w, hw⟩
    rcases buyNFT_entry_cases (run initialState acts) with hrej |
      ⟨listing, wallet, pr, hl, hwal, hne, hp⟩
    · rw [buyNFT_rejected env _ hrej] at hw
      cases hw
    · obtain ⟨nft, hn, hf⟩ := reachable_listing_fetched acts listing hl
      exact ⟨wallet, pr, nft, listing, hwal, hne, hp, hn, hl, hf⟩
  · intro h
    apply buyNFT_rejected
    rcases h with h | h | h | h
    · exact Or.inr (Or.inl h)
    · exact Or.inr (Or.inr h)
    · left
      cases hl : (run initialState acts).listing with
      | none => rfl
      | some l =>
        obtain ⟨nft, hn, _⟩ := reachable_listing_fetched acts l hl
        rw [h] at hn
        cases hn
    · exact Or.inl h

/-- C9, amended: a `fetchNFT` run whose contract address and token id are both
non-empty discards the stored listing, whatever its outcome: it ends with no
listing or with the listing answered in this very run; a run with an empty
contract address or token id is stopped by the input check, issues no request
and leaves the stored listing as it was. -/
theorem fetchNFT_discards_listing (env : FetchEnv) (s : State) :
    (s.contractAddress ≠ "" → s.tokenId ≠ "" →
      ((fetchNFT env s).1.listing = none ∨
        ∃ nft l,
          apiCall env.fetchAsset (assetEndpoint s.contractAddress s.tokenId) =
            .ok ⟨some nft⟩ ∧
          apiCall env.fetchBest (bestListingEndpoint nft.collection s.tokenId) = .ok l ∧
          (fetchNFT env s).1.nft = some nft ∧ (fetchNFT env s).1.listing = some l)) ∧
    ((s.contractAddress = "" ∨ s.tokenId = "") →
      (fetchNFT env s).1.listing = s.listing ∧ (fetchNFT env s).2 = []) := by
  constructor
  · intro hc ht
    exact fetchNFT_listing_cases env s hc ht
  · intro h
    rw [fetchNFT_rejected env s h]
    exact ⟨rfl, rfl⟩

/-- Witness of C3: an unknown chain (code 4902) leads to one add-network
request, a rejected switch (code 4001) to none. -/
theorem switchToApeChain_add_iff_4902_witness :
    addRequests (switchToApeChain unknownChainWalletEnv).2 = 1 ∧
    addRequests (switchToApeChain rejectingWalletEnv).2 = 0 :=
  ⟨(switchToApeChain_add_iff_4902 unknownChainWalletEnv).1.mpr ⟨_, rfl, rfl⟩,
   (switchToApeChain_add_iff_4902 rejectingWalletEnv).2.1
     (by rintro ⟨e, he, hc⟩; cases he; exact absurd hc (by decide))⟩

/-- Witness of C5: searching the sample asset when the marketplace answers
without an order hash. -/
theorem fetchNFT_no_order_hash_witness :
    (fetchNFT (sampleFetchEnv noHashListing) sampleState).1.listing = none ∧
    (fetchNFT (sampleFetchEnv noHashListing) sampleState).1.error = some "" ∧
    (fetchNFT (sampleFetchEnv noHashListing) sampleState).1.status =
      "NFT found - no active listing" ∧
    (fetchNFT (sampleFetchEnv noHashListing) sampleState).1.nft = some sampleNft ∧
    buyNFT successBuyEnv (fetchNFT (sampleFetchEnv noHashListing) sampleState).1 =
      ({ (fetchNFT (sampleFetchEnv noHashListing) sampleState).1 with
          error := some "No listing available" }, []) :=
  (fetchNFT_no_order_hash (sampleFetchEnv noHashListing) successBuyEnv sampleState
    (by decide) (by decide)).1 sampleNft (okResponse noHashListing) noHashListing
    rfl rfl rfl rfl rfl

/-- Witness of C6: a 200 fulfillment response without a transaction. -/
theorem buyNFT_missing_transaction_witness :
    (buyNFT (sampleBuyEnv (5 + 10 ^ 17) noTransactionFulfillment sampleSent)
        sampleState).1.error = some "Failed: No transaction data returned" ∧
    sentTransactions (buyNFT (sampleBuyEnv (5 + 10 ^ 17) noTransactionFulfillment sampleSent)
        sampleState).2 = [] ∧
    statuses (buyNFT (sampleBuyEnv (5 + 10 ^ 17) noTransactionFulfillment sampleSent)
        sampleState).2 = ["Checking balance...", "Preparing purchase..."] :=
  (buyNFT_missing_transaction (sampleBuyEnv (5 + 10 ^ 17) noTransactionFulfillment sampleSent)
    sampleState sampleListing "0xbuyer" Provider.web3 (5 + 10 ^ 17)
    (okResponse ⟨some ⟨none⟩⟩) rfl rfl (by decide) rfl rfl (by decide) rfl).1
    rfl ⟨some ⟨none⟩⟩ rfl (Or.inr ⟨⟨none⟩, rfl, rfl⟩)

/-- Witness of C7: a submission rejected with the selector `a61be9f0` ends
with the insufficient-funds message. -/
theorem buyNFT_submission_failure_classified_witness :
    (buyNFT (sampleBuyEnv (5 + 10 ^ 17) sampleFulfillment revertedSent)
        sampleState).1.error = some "Insufficient APE balance for this purchase" ∧
    (buyNFT (sampleBuyEnv (5 + 10 ^ 17) sampleFulfillment revertedSent)
        sampleState).1.error ≠ some ("Failed: " ++ "execution reverted: 0xa61be9f0") :=
  (buyNFT_submission_failure_classified
    (sampleBuyEnv (5 + 10 ^ 17) sampleFulfillment revertedSent) sampleState
    (txRequest sampleTxData "0xe7acab24")
    ⟨JsCode.num (-32603), some "execution reverted: 0xa61be9f0"⟩
    "execution reverted: 0xa61be9f0" (by decide) (Or.inl rfl) rfl).1
    (Or.inr ((includesList_iff_occurs _ _).mp (by decide)))

/-- Witness of C10: the purchase of the sample listing that goes through. -/
theorem buyNFT_sends_one_transaction_witness :
    sentTransactions (buyNFT successBuyEnv sampleState).2 =
      [{ to_ := some "0xseaport", data := "0xe7acab24", value := some "5",
         gasLimit := 350000 }] ∧
    statuses (buyNFT successBuyEnv sampleState).2 =
      ["Checking balance...", "Preparing purchase...", "Confirm in MetaMask...",
       "TX sent! 0xabc", "Purchase complete! 0xabc"] :=
  ⟨rfl,
   ((buyNFT_sends_one_transaction successBuyEnv sampleState (by decide)).2
      (txRequest sampleTxData "0xe7acab24") { hash := "0xabc", wait := .ok () }
      rfl rfl rfl).1⟩

/-- Witness of C8: after typing both inputs, connecting and finding the sample
listing, a `buyNFT` run queries the balance, and all four cells are present;
in the initial state the run is rejected without any request. -/
theorem buyNFT_entry_requires_session_asset_listing_witness :
    (∃ wallet pr nft l,
      (run initialState (sampleActions sampleListing)).wallet = some wallet ∧ wallet ≠ "" ∧
      (run initialState (sampleActions sampleListing)).provider = some pr ∧
      (run initialState (sampleActions sampleListing)).nft = some nft ∧
      (run initialState (sampleActions sampleListing)).listing = some l ∧
      FetchedFor (sampleActions sampleListing) nft l) ∧
    buyNFT successBuyEnv (run initialState []) =
      ({ run initialState [] with error := some "No listing available" }, []) :=
  ⟨(buyNFT_entry_requires_session_asset_listing (sampleActions sampleListing)
      successBuyEnv).1 ⟨"0xbuyer", by decide⟩,
   (buyNFT_entry_requires_session_asset_listing [] successBuyEnv).2 (Or.inr (Or.inl rfl))⟩

/-- C9, refuted as stated: after a search with an empty token id the listing
of the earlier lookup is still stored (and the run has issued no request), and
after a purchase that reaches `Purchase complete!` it is still stored too. -/
theorem listing_survives_rejected_search_and_purchase :
    (run initialState (sampleActions sampleListing ++
        [Action.setTokenId "", Action.fetchNFT (sampleFetchEnv noHashListing)])).listing =
      some sampleListing ∧
    (fetchNFT (sampleFetchEnv noHashListing)
        (run initialState (sampleActions sampleListing ++ [Action.setTokenId ""]))).2 = [] ∧
    (run initialState (sampleActions sampleListing ++
        [Action.buyNFT successBuyEnv])).status = "Purchase complete! 0xabc" ∧
    (run initialState (sampleActions sampleListing ++
        [Action.buyNFT successBuyEnv])).listing = some sampleListing :=
  ⟨rfl, rfl, rfl, rfl⟩

/-- Witness of C9, amended: a search with both inputs filled in and no active
listing ends with no stored listing; a search with an empty token id leaves
the stored listing as it was. -/
theorem fetchNFT_discards_listing_witness :
    ((fetchNFT (sampleFetchEnv noHashListing) sampleState).1.listing = none ∨
      ∃ nft l,
        apiCall (sampleFetchEnv noHashListing).fetchAsset
            (assetEndpoint sampleState.contractAddress sampleState.tokenId) =
          .ok ⟨some nft⟩ ∧
        apiCall (sampleFetchEnv noHashListing).fetchBest
            (bestListingEndpoint nft.collection sampleState.tokenId) = .ok l ∧
        (fetchNFT (sampleFetchEnv noHashListing) sampleState).1.nft = some nft ∧
        (fetchNFT (sampleFetchEnv noHashListing) sampleState).1.listing = some l) ∧
    ((fetchNFT (sampleFetchEnv noHashListing) { sampleState with tokenId := "" }).1.listing =
        sampleState.listing ∧
      (fetchNFT (sampleFetchEnv noHashListing) { sampleState with tokenId := "" }).2 = []) :=
  ⟨(fetchNFT_discards_listing (sampleFetchEnv noHashListing) sampleState).1
      (by decide) (by decide),
   (fetchNFT_discards_listing (sampleFetchEnv noHashListing)
      { sampleState with tokenId := "" }).2 (Or.inr rfl)⟩

end App
